import Mathlib

/-!
Verification of the norgopolis-module library (src/lib.rs, src/invoker_service.rs).

We give a shallow embedding of the three components the specification covers:

* the idle-shutdown supervisor task spawned in `Module::start` (lib.rs lines
  210-219), modelled as a small-step transition system `SupStep`;
* the invocation dispatcher `InvokerService::invoke` (invoker_service.rs lines
  39-53), modelled as a pure function threading the keepalive-channel state and
  recording an event trace for ordering claims;
* the one-shot connection source handed to the RPC engine (lib.rs lines
  221-236), modelled by the observable poll behaviour of a channel-backed
  receiver stream whose sender stays alive for the whole serve await.
-/

namespace Norgopolis

/-! ## Data model (module_communication protos and tonic types) -/

/-- Status codes from tonic (only the ones relevant here). -/
inductive Code where
  | ok
  | cancelled
  | unknown
  | invalidArgument
  | notFound
  | internal
deriving DecidableEq, Repr

/-- A tonic Status: an error code plus a message, as returned by handlers. -/
structure Status where
  code : Code
  message : String
deriving DecidableEq, Repr

/-- An opaque MessagePack payload: raw bytes, never inspected by the core. -/
structure MessagePack where
  data : List Nat
deriving DecidableEq, Repr

/-- One client request: a function name plus an optional opaque argument
payload (module_communication::Invocation). -/
structure Invocation where
  function_name : String
  args : Option MessagePack
deriving DecidableEq, Repr

/-- The handler's response stream: each element independently carries a
success payload or an error status. -/
abbrev ResultStream := List (Except Status MessagePack)

/-! ## Idle-shutdown supervisor (lib.rs lines 208-219)

The spawned task is straight-line code:

  sleep(self.timeout).await;
  if keepalive_rx.recv().now_or_never().is_none() \x7b std::process::exit(0); \x7d
  while keepalive_rx.recv().now_or_never().is_some() \x7b\x7d

We model it as a transition system parameterised by the timeout T (in abstract
ticks).  While the task sleeps, the countdown ticks and ActivitySignals may be
enqueued on the unbounded keepalive channel.  When the countdown elapses the
task performs one non-blocking check: an empty queue leads to a hard process
exit with code 0, a non-empty queue leads to the drain loop, after which the
task body ends (state `finished`) and is never re-armed. -/

/-- State of the supervisor task together with the keepalive queue contents. -/
inductive SupState where
  | sleeping (elapsed : Nat) (queue : List Unit)
  | checking (queue : List Unit)
  | draining (queue : List Unit)
  | exited (code : Nat)
  | finished
deriving DecidableEq, Repr

/-- One step of the supervisor task (and of signal arrival) for timeout T. -/
inductive SupStep (T : Nat) : SupState → SupState → Prop where
  | tick (t : Nat) (q : List Unit) (h : t < T) :
      SupStep T (.sleeping t q) (.sleeping (t + 1) q)
  | signal (t : Nat) (q : List Unit) :
      SupStep T (.sleeping t q) (.sleeping t (q ++ [()]))
  | timerElapsed (q : List Unit) :
      SupStep T (.sleeping T q) (.checking q)
  | idleExit :
      SupStep T (.checking []) (.exited 0)
  | keepAlive (s : Unit) (q : List Unit) :
      SupStep T (.checking (s :: q)) (.draining q)
  | drainOne (s : Unit) (q : List Unit) :
      SupStep T (.draining (s :: q)) (.draining q)
  | drainSignal (q : List Unit) :
      SupStep T (.draining q) (.draining (q ++ [()]))
  | drainDone :
      SupStep T (.draining []) .finished

/-- States the supervisor can occupy after a passed first check: it is either
still draining or its task body has ended. -/
def Surviving : SupState → Prop
  | .draining _ => True
  | .finished => True
  | _ => False

lemma surviving_step {T : Nat} {s s' : SupState}
    (hs : Surviving s) (h : SupStep T s s') : Surviving s' := by
  cases h <;> trivial

lemma surviving_reaches {T : Nat} {s s' : SupState} (hs : Surviving s)
    (h : Relation.ReflTransGen (SupStep T) s s') : Surviving s' := by
  induction h with
  | refl => exact hs
  | tail _ hstep ih => exact surviving_step ih hstep

lemma drain_to_finished (T : Nat) (q : List Unit) :
    Relation.ReflTransGen (SupStep T) (.draining q) .finished := by
  induction q with
  | nil => exact Relation.ReflTransGen.single SupStep.drainDone
  | cons a as ih => exact Relation.ReflTransGen.head (SupStep.drainOne a as) ih

lemma sleep_ticks (T d : Nat) : ∀ t, t + d = T →
    Relation.ReflTransGen (SupStep T) (.sleeping t []) (.sleeping T []) := by
  induction d with
  | zero => intro t h; rw [Nat.add_zero] at h; subst h; exact Relation.ReflTransGen.refl
  | succ d ih =>
      intro t h
      have ht : t < T := by omega
      exact Relation.ReflTransGen.head (SupStep.tick t [] ht) (ih (t + 1) (by omega))

lemma reaches_from_checking_nonempty {T : Nat} {s : Unit} {q : List Unit}
    {target : SupState}
    (h : Relation.ReflTransGen (SupStep T) (.checking (s :: q)) target) :
    target = SupState.checking (s :: q) ∨ Surviving target := by
  induction h with
  | refl => exact Or.inl rfl
  | tail _ hstep ih =>
      rcases ih with heq | hsur
      · subst heq
        cases hstep
        exact Or.inr trivial
      · exact Or.inr (surviving_step hsur hstep)

lemma transgen_from_checking_nonempty {T : Nat} {s : Unit} {q : List Unit}
    {target : SupState}
    (h : Relation.TransGen (SupStep T) (.checking (s :: q)) target) :
    Surviving target := by
  induction h with
  | single hstep => cases hstep; trivial
  | tail _ hstep ih => exact surviving_step ih hstep

/-! ## The keepalive channel and the invocation dispatcher
(invoker_service.rs lines 18-54) -/

/-- The unbounded mpsc keepalive channel of unit ActivitySignals: the queued
signals plus whether the consuming half (the supervisor) is still alive. -/
structure UnboundedChannel where
  receiverAlive : Bool
  queue : List Unit
deriving DecidableEq, Repr

/-- UnboundedSender::send: enqueue the signal if the receiver is alive and
report success, otherwise leave the channel untouched and report failure.
It never blocks and never raises. -/
def UnboundedChannel.send (c : UnboundedChannel) : UnboundedChannel × Bool :=
  if c.receiverAlive then ({ c with queue := c.queue ++ [()] }, true) else (c, false)

/-- The module author's handler (trait Service, invoker_service.rs lines 7-16):
call either fails outright with a Status or yields a lazy result stream. -/
structure Service where
  call : String → Option MessagePack → Except Status ResultStream

/-- Observable events of one dispatch, in order of occurrence, used to state
the ordering invariants (signal emitted before the handler runs). -/
inductive DispatchEvent where
  | signalSend (delivered : Bool)
  | handlerCall (fn : String) (args : Option MessagePack)
deriving DecidableEq, Repr

/-- InvokerService::invoke (invoker_service.rs lines 39-53):

  let invocation = request.into_inner();
  let _ = self.tx.send(());
  let response = self.service.call(invocation.function_name, invocation.args).await?;
  Ok(Response::new(Box::pin(response)))

The tonic Request wrapper is identity here (into_inner), so the function takes
the Invocation directly; the keepalive-channel state is threaded explicitly and
an event trace records the sequence of effects.  The result of tx.send is
discarded (the `let _ =`), and the ? operator propagates a failing first
outcome of the handler unchanged; a successful stream is boxed unchanged. -/
def InvokerService.invoke (service : Service) (chan : UnboundedChannel)
    (request : Invocation) :
    UnboundedChannel × List DispatchEvent × Except Status ResultStream :=
  let invocation := request
  let sendResult := UnboundedChannel.send chan
  let events := [DispatchEvent.signalSend sendResult.2,
                 DispatchEvent.handlerCall invocation.function_name invocation.args]
  match service.call invocation.function_name invocation.args with
  | Except.error status => (sendResult.1, events, Except.error status)
  | Except.ok response => (sendResult.1, events, Except.ok response)

/-! ## Module configuration (lib.rs lines 179-202) -/

/-- std::time::Duration, to the granularity the code uses. -/
structure Duration where
  secs : Nat
deriving DecidableEq, Repr

/-- Duration::from_secs. -/
def Duration.from_secs (n : Nat) : Duration := ⟨n⟩

/-- A module that can communicate with Norgopolis over stdin/stdout: its only
configuration is the idle-timeout duration. -/
structure Module where
  timeout : Duration
deriving DecidableEq, Repr

/-- Module::new (lib.rs lines 194-198). -/
def Module.new : Module :=
  { timeout := Duration.from_secs (60 * 5) }

/-- impl Default for Module (lib.rs lines 187-191): delegates to new(). -/
def Module.default : Module := Module.new

/-- Module::timeout builder (lib.rs lines 200-202): consumes self, returns a
module with exactly the given timeout. -/
def Module.timeout' (_self : Module) (timeout : Duration) : Module :=
  { timeout }

/-! ## The connection source handed to the RPC engine (lib.rs lines 221-236)

  let (tx, rx) = tokio::sync::mpsc::channel::<Result<StdioService, anyhow::Error>>(1);
  tx.send(Ok(stdio_service)).await?;
  ... .serve_with_incoming(ReceiverStream::new(rx)).await

Exactly one item is sent; tx is a local of `start` that outlives the serve
await, so the sender half stays alive while the engine polls the stream. -/

/-- One half of the module's stdio pair. -/
inductive StdioHandle where
  | stdinHandle
  | stdoutHandle
deriving DecidableEq, Repr

/-- StdioService (stdio_service.rs): the connection wrapping stdin/stdout. -/
structure StdioService where
  stdin : StdioHandle
  stdout : StdioHandle
deriving DecidableEq, Repr

/-- The stdio-backed connection built in Module::start (lib.rs lines 221-222). -/
def stdioService : StdioService :=
  { stdin := StdioHandle.stdinHandle, stdout := StdioHandle.stdoutHandle }

/-- anyhow::Error, opaque. -/
structure AnyhowError where
  msg : String
deriving DecidableEq, Repr

/-- A bounded mpsc channel seen from the receiver: the items already sent into
it, in order, and whether a sender handle is still alive. -/
structure BoundedChannel (α : Type) where
  sent : List α
  senderAlive : Bool

/-- What one poll of a tokio ReceiverStream can observe. -/
inductive StreamPoll (α : Type) where
  | item (a : α)
  | pending
  | ended

/-- Semantics of ReceiverStream: the n-th poll yields the n-th sent item; once
the sent items are exhausted it stays pending while a sender is alive, and
signals end-of-sequence only after every sender is dropped. -/
def receiverStreamPoll {α : Type} (ch : BoundedChannel α) (n : Nat) : StreamPoll α :=
  match ch.sent[n]? with
  | some a => StreamPoll.item a
  | none => if ch.senderAlive then StreamPoll.pending else StreamPoll.ended

/-- The connection source built in Module::start (lib.rs lines 226-227): the
single stdio connection has been sent successfully, and the sender handle is
kept alive for the entire serve await (tx is dropped only after serve returns). -/
def connectionSource : BoundedChannel (Except AnyhowError StdioService) :=
  { sent := [Except.ok stdioService], senderAlive := true }

/-! ## Concrete fixtures used by the witnesses -/

/-- The status recommended by the library docs for an unknown function. -/
def notFoundStatus : Status :=
  { code := Code.notFound, message := "Requested function not found!" }

/-- A handler whose call fails immediately with NotFound. -/
def failingService : Service :=
  ⟨fun _ _ => Except.error notFoundStatus⟩

/-- A concrete invocation with an opaque three-byte argument payload. -/
def sampleInvocation : Invocation :=
  { function_name := "my-function", args := some ⟨[1, 2, 3]⟩ }

/-- A keepalive channel whose supervisor-side receiver is still alive. -/
def aliveChan : UnboundedChannel := { receiverAlive := true, queue := [] }

/-- A keepalive channel whose supervisor-side receiver has been dropped. -/
def deadChan : UnboundedChannel := { receiverAlive := false, queue := [] }

def msgA : MessagePack := ⟨[10]⟩

def msgB : MessagePack := ⟨[20]⟩

/-- An error status carried by a mid-stream element. -/
def statusC : Status := { code := Code.internal, message := "mid-stream failure" }

/-- A handler whose call succeeds and yields Ok(A), Ok(B), Err(C). -/
def streamingService : Service :=
  ⟨fun _ _ => Except.ok [Except.ok msgA, Except.ok msgB, Except.error statusC]⟩

/-! ## Claim theorems -/

/-- Claim C1: for every timeout T, when the countdown elapses with no
ActivitySignal queued, the supervisor's only possible behaviour is an
immediate hard exit with success status 0; and the signal-free run from
process start to that exit is an execution of the system. -/
theorem supervisor_idle_hard_exit (T : Nat) :
    Relation.ReflTransGen (SupStep T) (SupState.sleeping 0 []) (SupState.exited 0) ∧
    ∀ s', SupStep T (SupState.checking []) s' → s' = SupState.exited 0 := by
  constructor
  · exact (sleep_ticks T T 0 (Nat.zero_add T)).trans
      (Relation.ReflTransGen.head (SupStep.timerElapsed [])
        (Relation.ReflTransGen.single SupStep.idleExit))
  · intro s' h
    cases h
    rfl

/-- Witness for C1 at T = 2, applying the exit determinism at the idleExit step. -/
theorem supervisor_idle_hard_exit_witness :
    Relation.ReflTransGen (SupStep 2) (SupState.sleeping 0 []) (SupState.exited 0) ∧
    SupState.exited 0 = SupState.exited 0 :=
  ⟨(supervisor_idle_hard_exit 2).1,
   (supervisor_idle_hard_exit 2).2 (SupState.exited 0) SupStep.idleExit⟩

/-- Claim C2: for every timeout T, if at least one ActivitySignal is queued
when the countdown elapses, no state reachable from that check is a process
exit, and the supervisor can drain the whole queue and let the process
continue (reach the finished state). -/
theorem supervisor_keepalive_no_exit (T : Nat) (s : Unit) (q : List Unit)
    (target : SupState)
    (h : Relation.ReflTransGen (SupStep T) (SupState.checking (s :: q)) target) :
    (∀ c, target ≠ SupState.exited c) ∧
    Relation.ReflTransGen (SupStep T) (SupState.checking (s :: q)) SupState.finished := by
  constructor
  · intro c hc
    subst hc
    rcases reaches_from_checking_nonempty h with heq | hsur
    · exact SupState.noConfusion heq
    · exact hsur
  · exact Relation.ReflTransGen.head (SupStep.keepAlive s q) (drain_to_finished T q)

/-- Witness for C2 at T = 1 with one queued signal, at the reflexive reach. -/
theorem supervisor_keepalive_no_exit_witness :
    SupState.checking [()] ≠ SupState.exited 0 ∧
    Relation.ReflTransGen (SupStep 1) (SupState.checking [()]) SupState.finished :=
  ⟨(supervisor_keepalive_no_exit 1 () [] (SupState.checking [()])
      Relation.ReflTransGen.refl).1 0,
   (supervisor_keepalive_no_exit 1 () [] (SupState.checking [()])
      Relation.ReflTransGen.refl).2⟩

/-- Claim C10: the supervisor checks exactly once.  After a first check that
found a signal, every strictly later state is neither a checking state (no
re-armed countdown ever checks again) nor a process exit, and the finished
state is terminal, so the idle-shutdown mechanism can never terminate the
process after the first window. -/
theorem supervisor_checks_once (T : Nat) (s : Unit) (q : List Unit)
    (target : SupState)
    (h : Relation.TransGen (SupStep T) (SupState.checking (s :: q)) target) :
    (∀ q', target ≠ SupState.checking q') ∧
    (∀ c, target ≠ SupState.exited c) ∧
    ∀ u, ¬ SupStep T SupState.finished u := by
  have hsur := transgen_from_checking_nonempty h
  refine ⟨?_, ?_, ?_⟩
  · intro q' hq
    rw [hq] at hsur
    exact hsur
  · intro c hc
    rw [hc] at hsur
    exact hsur
  · intro u hu
    nomatch hu

/-- Witness for C10 at T = 1 with one queued signal, after the keepAlive step. -/
theorem supervisor_checks_once_witness :
    SupState.draining [] ≠ SupState.checking [] ∧
    SupState.draining [] ≠ SupState.exited 0 ∧
    ¬ SupStep 1 SupState.finished (SupState.exited 0) :=
  ⟨(supervisor_checks_once 1 () [] (SupState.draining [])
      (Relation.TransGen.single (SupStep.keepAlive () []))).1 [],
   (supervisor_checks_once 1 () [] (SupState.draining [])
      (Relation.TransGen.single (SupStep.keepAlive () []))).2.1 0,
   (supervisor_checks_once 1 () [] (SupState.draining [])
      (Relation.TransGen.single (SupStep.keepAlive () []))).2.2 (SupState.exited 0)⟩

/-- Claim C3: every dispatched Invocation produces exactly one ActivitySignal
send, ordered before the handler call, whatever the handler outcome; when the
supervisor is alive exactly one signal lands on the queue, otherwise none. -/
theorem invoke_signal_before_handler (service : Service) (chan : UnboundedChannel)
    (request : Invocation) :
    (InvokerService.invoke service chan request).2.1 =
      [DispatchEvent.signalSend chan.receiverAlive,
       DispatchEvent.handlerCall request.function_name request.args] ∧
    (InvokerService.invoke service chan request).1.queue =
      (if chan.receiverAlive then chan.queue ++ [()] else chan.queue) := by
  cases hr : service.call request.function_name request.args <;>
    cases hc : chan.receiverAlive <;>
      simp [InvokerService.invoke, UnboundedChannel.send, hr, hc]

/-- Claim C4: when the handler's first outcome is an error status, invoke
returns exactly that status as a terminal call-level error and no stream. -/
theorem invoke_error_terminal (service : Service) (chan : UnboundedChannel)
    (request : Invocation) (status : Status)
    (h : service.call request.function_name request.args = Except.error status) :
    (InvokerService.invoke service chan request).2.2 = Except.error status ∧
    ∀ stream : ResultStream,
      (InvokerService.invoke service chan request).2.2 ≠ Except.ok stream := by
  simp [InvokerService.invoke, h]

/-- Witness for C4: a handler failing immediately with NotFound. -/
theorem invoke_error_terminal_witness :
    (InvokerService.invoke failingService aliveChan sampleInvocation).2.2 =
      Except.error notFoundStatus :=
  (invoke_error_terminal failingService aliveChan sampleInvocation notFoundStatus rfl).1

/-- Claim C5: when the handler's call succeeds, invoke hands the handler's
result stream to the engine unchanged, error-tagged elements included. -/
theorem invoke_stream_unchanged (service : Service) (chan : UnboundedChannel)
    (request : Invocation) (stream : ResultStream)
    (h : service.call request.function_name request.args = Except.ok stream) :
    (InvokerService.invoke service chan request).2.2 = Except.ok stream := by
  simp [InvokerService.invoke, h]

/-- Witness for C5: a handler yielding Ok(A), Ok(B), Err(C) is observed
exactly as those three elements in order. -/
theorem invoke_stream_unchanged_witness :
    (InvokerService.invoke streamingService aliveChan sampleInvocation).2.2 =
      Except.ok [Except.ok msgA, Except.ok msgB, Except.error statusC] :=
  invoke_stream_unchanged streamingService aliveChan sampleInvocation
    [Except.ok msgA, Except.ok msgB, Except.error statusC] rfl

/-- Claim C6: the connection source yields the stdio connection, delivered
successfully, on its first poll, and every later poll is pending: it never
yields another item, never signals end-of-sequence, and never errors, because
the sender stays alive for the whole serve await. -/
theorem connection_source_single_item :
    receiverStreamPoll connectionSource 0 = StreamPoll.item (Except.ok stdioService) ∧
    ∀ n : Nat, receiverStreamPoll connectionSource (n + 1) = StreamPoll.pending := by
  constructor
  · rfl
  · intro n
    simp [receiverStreamPoll, connectionSource]

/-- Claim C7: the dispatcher passes the function name and the opaque argument
payload to the handler exactly as received, and its outcome is exactly the
handler's outcome at those arguments — it never inspects or mutates them. -/
theorem invoke_forwards_verbatim (service : Service) (chan : UnboundedChannel)
    (request : Invocation) :
    DispatchEvent.handlerCall request.function_name request.args ∈
      (InvokerService.invoke service chan request).2.1 ∧
    (InvokerService.invoke service chan request).2.2 =
      service.call request.function_name request.args := by
  cases hr : service.call request.function_name request.args <;>
    simp [InvokerService.invoke, hr]

/-- Claim C8: when the supervisor's receiver is gone, the signal send fails
silently: the channel is left untouched, no error is raised, and the dispatch
proceeds exactly as the handler dictates. -/
theorem invoke_send_best_effort (service : Service) (chan : UnboundedChannel)
    (request : Invocation) (h : chan.receiverAlive = false) :
    (InvokerService.invoke service chan request).1 = chan ∧
    (InvokerService.invoke service chan request).2.1 =
      [DispatchEvent.signalSend false,
       DispatchEvent.handlerCall request.function_name request.args] ∧
    (InvokerService.invoke service chan request).2.2 =
      service.call request.function_name request.args := by
  cases hr : service.call request.function_name request.args <;>
    simp [InvokerService.invoke, UnboundedChannel.send, h, hr]

/-- Witness for C8: dispatch over a dead keepalive channel. -/
theorem invoke_send_best_effort_witness :
    (InvokerService.invoke streamingService deadChan sampleInvocation).1 = deadChan ∧
    (InvokerService.invoke streamingService deadChan sampleInvocation).2.1 =
      [DispatchEvent.signalSend false,
       DispatchEvent.handlerCall sampleInvocation.function_name sampleInvocation.args] ∧
    (InvokerService.invoke streamingService deadChan sampleInvocation).2.2 =
      streamingService.call sampleInvocation.function_name sampleInvocation.args :=
  invoke_send_best_effort streamingService deadChan sampleInvocation rfl

/-- Claim C9: Module::new (and Default) sets the timeout to exactly 300
seconds, and the timeout builder returns a Module with exactly the given
duration. -/
theorem module_timeout_config :
    Module.new.timeout = Duration.from_secs 300 ∧
    Module.default = Module.new ∧
    ∀ (m : Module) (d : Duration), (Module.timeout' m d).timeout = d :=
  ⟨rfl, rfl, fun _ _ => rfl⟩

end Norgopolis
